import Mathlib

/-!
A verification development for the `plugandplay-react-query-hooks` package.

The embedding follows the TypeScript source:
* `src/context/AppContext.tsx` — the Auth State Holder (token, setToken,
  login, logout, isAuthenticated).
* `src/api/index.ts` — `createApiClient`: the transport factory, its
  request interceptor (Authorization header injection) and, when
  `enableRefreshToken` is set, the 401/refresh response interceptor with its
  `isRefreshing` flag, `failedQueue` and `processQueue`.
* `src/hooks/index.ts` — the mutation hooks' `onSuccess` wrapper
  (invalidation of caller-supplied keys, then the caller's `onSuccess`),
  and the object-literal merge `\x7b mutationFn, onSuccess, ...options \x7d`
  that useMutation actually receives.

Side effects (promise resolution, query invalidation, retries) are recorded
as explicit action lists so that ordering and multiplicity can be stated.
JavaScript string truthiness (`if (token)`, `!!token`, `token || ""`) is
modelled as non-emptiness of the string.
-/

namespace PlugAndPlay

/-! ## Auth State Holder (`src/context/AppContext.tsx`) -/

/-- The provider state: `useState<string | null>`. -/
structure AppState where
  token : Option String
deriving DecidableEq, Repr

/-- `setToken(newToken)` — stores the new value. -/
def setToken (s : AppState) (newToken : Option String) : AppState :=
  { s with token := newToken }

/-- `login(newToken)` — alias for the setter with a (string) value. -/
def login (s : AppState) (newToken : String) : AppState :=
  setToken s (some newToken)

/-- `logout()` — `setToken(null)`. -/
def logout (s : AppState) : AppState :=
  setToken s none

/-- `isAuthenticated = !!token`: JavaScript truthiness — `null` and the
empty string are both falsy. -/
def isAuthenticated (s : AppState) : Bool :=
  match s.token with
  | none => false
  | some t => !t.isEmpty

/-- `initialToken || null` in the provider: an empty initial token is
normalised to `null`. -/
def initialAppState (initialToken : Option String) : AppState :=
  { token :=
      match initialToken with
      | none => none
      | some t => if t.isEmpty then none else some t }

/-- The hooks pass `token || ""` to `createApiClient`: `null` becomes the
empty string. -/
def tokenForClient (s : AppState) : String :=
  match s.token with
  | none => ""
  | some t => t

/-! ## Transport factory (`src/api/index.ts`, `createApiClient`) -/

/-- A request configuration: the `Authorization` header (if any) and the
`_retry` marker used by the refresh interceptor. -/
structure RequestConfig where
  authorization : Option String
  retry : Bool
deriving DecidableEq, Repr

/-- The transport built by `createApiClient(baseUrl, token, enableRefreshToken, bearer)`:
base address, the default headers from `axios.create`, and the three values
the interceptors close over. -/
structure Transport where
  baseURL : String
  defaultHeaders : List (String × String)
  token : String
  enableRefreshToken : Bool
  bearer : Bool
deriving DecidableEq, Repr

/-- `createApiClient` — the factory's four parameters, as declared in the
source (`enableRefreshToken` defaults to `false` there). -/
def createApiClient (baseUrl : String) (token : String)
    (enableRefreshToken : Bool) (bearer : Bool) : Transport :=
  { baseURL := baseUrl
    defaultHeaders := [("Content-Type", "application/json")]
    token := token
    enableRefreshToken := enableRefreshToken
    bearer := bearer }

/-- A call site that passes a fifth positional argument (`axiosConfig`) to
`createApiClient`, as the config-object mutation hooks do. JavaScript
drops positional arguments beyond the declared parameters, so the extra
argument never reaches the factory body. -/
def createApiClientWithExtra (baseUrl : String) (token : String)
    (enableRefreshToken : Bool) (bearer : Bool)
    (axiosConfig : Option (List (String × String))) : Transport :=
  createApiClient baseUrl token enableRefreshToken bearer

/-- The request interceptor: `if (token) config.headers.Authorization =
bearer ? Bearer token : token` (`token` truthy iff non-empty). -/
def requestInterceptor (bearer : Bool) (token : String)
    (config : RequestConfig) : RequestConfig :=
  if !token.isEmpty then
    { config with
        authorization := some (if bearer then "Bearer " ++ token else token) }
  else config

/-- A fresh outgoing request built through the transport: no Authorization
header before the interceptor runs, `_retry` unset. -/
def buildRequest (t : Transport) : RequestConfig :=
  requestInterceptor t.bearer t.token { authorization := none, retry := false }

/-! ## Refresh interceptor (`src/api/index.ts`, lines 48-132)

Queued waiters (`QueueItem`) are identified by a number; invoking their
`resolve`/`reject` callbacks is recorded as an action. -/

/-- Observable effects of an interceptor step, in execution order. -/
inductive Action where
  | startRefresh
  | enqueue (w : Nat)
  | resolveWaiter (w : Nat) (newToken : String)
  | rejectWaiter (w : Nat) (err : String)
  | retryRequest (cfg : RequestConfig)
deriving DecidableEq, Repr

/-- A response error as seen by the interceptor: `error.response?.status`
plus an identity tag, so that "propagated unmodified" is expressible. -/
structure ApiError where
  status : Option Nat
  tag : String
deriving DecidableEq, Repr

/-- What a caller's promise is ultimately rejected with: either the
response error itself or a refresh error. -/
inductive RejectValue where
  | apiErr (e : ApiError)
  | refreshErr (msg : String)
deriving DecidableEq, Repr

/-- How one interceptor invocation settles the caller's promise. -/
inductive HandlerResult where
  | reject (v : RejectValue)
  | retry (cfg : RequestConfig)
  | suspend (w : Nat)
deriving DecidableEq, Repr

/-- The state closed over by one transport's refresh interceptor:
the captured `token` parameter (reassigned on refresh), the
`isRefreshing` flag and the `failedQueue` of waiters in FIFO order. -/
structure RefreshState where
  token : String
  isRefreshing : Bool
  failedQueue : List Nat
deriving DecidableEq, Repr

/-- The interceptor state right after `createApiClient` returns. -/
def initialRefreshState (t : Transport) : RefreshState :=
  { token := t.token, isRefreshing := false, failedQueue := [] }

/-- The simulated refresh: `refreshed_<token>_<Date.now()>`, computed
locally with no network call. -/
def simulateRefresh (token : String) (now : Nat) : String :=
  "refreshed_" ++ token ++ "_" ++ toString now

/-- `processQueue(error, token)`: `forEach` over `failedQueue` — reject
every waiter with the error if one is given, else resolve every waiter
with the token — then `failedQueue = []`. The source's non-null assertion
`token!` corresponds to the default, which no success-path call hits. -/
def processQueue (failedQueue : List Nat) (error : Option String)
    (token : Option String) : List Action × List Nat :=
  (failedQueue.map fun w =>
      match error with
      | some e => Action.rejectWaiter w e
      | none => Action.resolveWaiter w (token.getD ""), [])

/-- The response-error handler with the outcome of the `try` block's
refresh passed in explicitly (`Except.ok newToken` when the refresh
succeeds, `Except.error e` when it throws into the `catch`). The branch
structure mirrors the source: a 401 on a not-yet-retried request either
enqueues (refresh already in flight) or marks the request retried, runs
the refresh, drains the queue and retries; anything else is rejected
unmodified. `return apiClient(originalRequest)` sits inside the `try`
but, being a `return` of a promise without `await`, its rejection does
not reach the `catch`; it is modelled as the `retry` result whose outcome
the caller adopts. -/
def handle401Core (st : RefreshState) (err : ApiError)
    (originalRequest : RequestConfig) (refreshOutcome : Except String String)
    (waiterId : Nat) : RefreshState × HandlerResult × List Action :=
  if err.status = some 401 ∧ originalRequest.retry = false then
    if st.isRefreshing then
      ({ st with failedQueue := st.failedQueue ++ [waiterId] },
       HandlerResult.suspend waiterId, [Action.enqueue waiterId])
    else
      match refreshOutcome with
      | Except.ok newToken =>
        let drained := processQueue st.failedQueue none (some newToken)
        let retried : RequestConfig :=
          { originalRequest with
              retry := true, authorization := some ("Bearer " ++ newToken) }
        ({ token := newToken, isRefreshing := false, failedQueue := drained.2 },
         HandlerResult.retry retried,
         Action.startRefresh :: drained.1 ++ [Action.retryRequest retried])
      | Except.error e =>
        let drained := processQueue st.failedQueue (some e) none
        ({ st with isRefreshing := false, failedQueue := drained.2 },
         HandlerResult.reject (RejectValue.refreshErr e),
         Action.startRefresh :: drained.1)
  else
    (st, HandlerResult.reject (RejectValue.apiErr err), [])

/-- The handler as implemented: the `try` block only logs, builds the
`refreshed_..._...` string, reassigns `token`, drains the queue and sets
headers — none of which can throw — so the refresh outcome is always
`Except.ok (simulateRefresh st.token now)`. -/
def handle401 (st : RefreshState) (err : ApiError) (req : RequestConfig)
    (now waiterId : Nat) : RefreshState × HandlerResult × List Action :=
  handle401Core st err req (Except.ok (simulateRefresh st.token now)) waiterId

/-- The response-error path of a transport: the refresh interceptor is
installed only when `enableRefreshToken` is true; otherwise the error
propagates to the caller as-is (no interceptor attached). -/
def responseErrorHandler (t : Transport) (st : RefreshState) (err : ApiError)
    (req : RequestConfig) (now waiterId : Nat) :
    RefreshState × HandlerResult × List Action :=
  if t.enableRefreshToken then handle401 st err req now waiterId
  else (st, HandlerResult.reject (RejectValue.apiErr err), [])

/-- Outcome of a dispatched request as decided by the network. -/
inductive NetOutcome where
  | success (body : String)
  | failure (v : RejectValue)
deriving DecidableEq, Repr

/-- What the original caller's promise settles to, given how the network
answers a retried request: a rejection passes the value through, a retry
adopts the retried request's own outcome unmodified, and a suspended
(queued) caller is still pending. -/
def adoptOutcome (network : RequestConfig → NetOutcome) :
    HandlerResult → Option NetOutcome
  | HandlerResult.reject v => some (NetOutcome.failure v)
  | HandlerResult.retry cfg => some (network cfg)
  | HandlerResult.suspend _ => none

/-- The provider state together with one transport's interceptor state.
`createApiClient` receives only the token string by value and no setter,
so an interceptor step leaves the provider state untouched. -/
structure SystemState where
  app : AppState
  client : RefreshState
deriving DecidableEq, Repr

/-- One response-error interceptor step of the whole system (refresh
enabled). -/
def systemResponseError (sys : SystemState) (err : ApiError)
    (req : RequestConfig) (now waiterId : Nat) :
    SystemState × HandlerResult × List Action :=
  let r := handle401 sys.client err req now waiterId
  ({ sys with client := r.1 }, r.2.1, r.2.2)

/-- The 401 error used for a batch of concurrent expired-token responses. -/
def err401 : ApiError :=
  { status := some 401, tag := "expired" }

/-- A request that has not been retried yet. -/
def freshRequest : RequestConfig :=
  { authorization := none, retry := false }

/-- A sequence of 401 responses for distinct fresh requests arriving at the
interceptor, each identified by its waiter id, processed in order. -/
def run401s (st : RefreshState) (ids : List Nat) : RefreshState × List Action :=
  match ids with
  | [] => (st, [])
  | i :: rest =>
    let r := handle401 st err401 freshRequest 0 i
    let rr := run401s r.1 rest
    (rr.1, r.2.2 ++ rr.2)

/-! ## Mutation hooks (`src/hooks/index.ts`, config-object variants) -/

/-- Effects of the mutation's success path, in order. -/
inductive MutAction where
  | invalidate (key : String)
  | callUserOnSuccess
deriving DecidableEq, Repr

/-- `invalidateQueryKey?: string | string[]`. -/
inductive InvalidateKey where
  | single (k : String)
  | multi (ks : List String)
deriving DecidableEq, Repr

/-- `if (invalidateQueryKey) \x7b if (Array.isArray(...)) forEach(invalidate)
else invalidate \x7d` — an absent or empty-string key is falsy and skipped;
an array invalidates each element in order. -/
def invalidateActions (ik : Option InvalidateKey) : List MutAction :=
  match ik with
  | none => []
  | some (InvalidateKey.single k) =>
    if k.isEmpty then [] else [MutAction.invalidate k]
  | some (InvalidateKey.multi ks) => ks.map MutAction.invalidate

/-- The `onSuccess` wrapper the hook writes into the `useMutation`
options object: invalidate the provided key(s), then
`options.onSuccess?.(...)`. -/
def wrapperOnSuccess (ik : Option InvalidateKey) (userOnSuccess : Bool) :
    List MutAction :=
  invalidateActions ik ++
    (if userOnSuccess then [MutAction.callUserOnSuccess] else [])

/-- The `onSuccess` that `useMutation` actually receives. The hook builds
`\x7b mutationFn, onSuccess: wrapper, ...options \x7d`: the spread comes after
the wrapper key, so when the caller's options carry their own `onSuccess`
it replaces the wrapper entirely. -/
def effectiveOnSuccess (ik : Option InvalidateKey) (userOnSuccess : Bool) :
    List MutAction :=
  if userOnSuccess then [MutAction.callUserOnSuccess]
  else wrapperOnSuccess ik false

/-! ## Theorems -/

/-- Prefixing with the bearer scheme changes the header value. -/
theorem bearer_scheme_ne (t : String) : "Bearer " ++ t ≠ t := by
  intro h
  have h2 := congrArg String.length h
  rw [String.length_append] at h2
  have h3 : "Bearer ".length = 7 := by decide
  omega

/-- C1: the claim reads "invalidation for the keys, then the caller's
success continuation"; the hook's wrapper does exactly that, but
`useMutation` receives `\x7b mutationFn, onSuccess: wrapper, ...options \x7d`,
and the spread replaces the wrapper whenever the caller supplies their own
`onSuccess` — so with `invalidateQueryKey = ["a", "b"]` and a caller
continuation, only the caller's continuation runs and no invalidation
occurs. -/
theorem c1_user_continuation_overrides_invalidation :
    wrapperOnSuccess (some (InvalidateKey.multi ["a", "b"])) true
      = [MutAction.invalidate "a", MutAction.invalidate "b",
         MutAction.callUserOnSuccess] ∧
    effectiveOnSuccess (some (InvalidateKey.multi ["a", "b"])) true
      = [MutAction.callUserOnSuccess] := by
  exact ⟨rfl, rfl⟩

/-- C2 counterexample: a successful refresh (token "t0", timestamp 5,
yielding "refreshed_t0_5") updates only the transport's captured token; the
Auth State Holder still holds "t0", so its token is not updated to the new
token as the claim states. -/
theorem c2_holder_token_not_updated :
    (systemResponseError
        { app := { token := some "t0" },
          client := { token := "t0", isRefreshing := false, failedQueue := [] } }
        { status := some 401, tag := "expired" }
        { authorization := none, retry := false } 5 0).1.app.token = some "t0" ∧
    (systemResponseError
        { app := { token := some "t0" },
          client := { token := "t0", isRefreshing := false, failedQueue := [] } }
        { status := some 401, tag := "expired" }
        { authorization := none, retry := false } 5 0).1.client.token
      = "refreshed_t0_5" ∧
    ("t0" : String) ≠ "refreshed_t0_5" := by
  refine ⟨rfl, rfl, by decide⟩

/-- C5: a request built through the transport carries
`Authorization: Bearer T` iff the bearer flag is set and T is non-empty,
carries the raw token T iff the flag is unset and T is non-empty, and
carries no Authorization header iff T is empty. -/
theorem c5_authorization_header (u token : String) (r bearer : Bool) :
    ((buildRequest (createApiClient u token r bearer)).authorization
        = some ("Bearer " ++ token) ↔ bearer = true ∧ token ≠ "") ∧
    ((buildRequest (createApiClient u token r bearer)).authorization
        = some token ↔ bearer = false ∧ token ≠ "") ∧
    ((buildRequest (createApiClient u token r bearer)).authorization
        = none ↔ token = "") := by
  by_cases he : token = ""
  · subst he
    have h0 : ("" : String).isEmpty = true := by decide
    simp [buildRequest, createApiClient, requestInterceptor, h0]
  · have hne : token.isEmpty = false := by
      rw [Bool.eq_false_iff]
      intro h
      exact he ((String.isEmpty_iff token).mp h)
    cases bearer with
    | true =>
      simp [buildRequest, createApiClient, requestInterceptor, hne, he,
        bearer_scheme_ne]
    | false =>
      refine ⟨?_, ?_, ?_⟩ <;>
        simp [buildRequest, createApiClient, requestInterceptor, hne, he] <;>
        exact fun h => (bearer_scheme_ne token) h.symm

/-- C8 counterexample: `login("")` leaves the token non-null (the empty
string) while `isAuthenticated = !!token` is false, so isAuthenticated is
not equivalent to the token being non-null. -/
theorem c8_empty_token_counterexample :
    (login { token := none } "").token ≠ none ∧
    isAuthenticated (login { token := none } "") = false := by
  exact ⟨by decide, rfl⟩

/-- C8 (amended): isAuthenticated is true iff the token is non-null AND
non-empty (JavaScript truthiness of `!!token`); after `logout()` the token
is null, isAuthenticated is false, and a request built from this state
carries no Authorization header. -/
theorem c8_isAuthenticated_truthiness (s : AppState) (u : String) (r b : Bool) :
    (isAuthenticated s = true ↔ ∃ t, s.token = some t ∧ t ≠ "") ∧
    (logout s).token = none ∧
    isAuthenticated (logout s) = false ∧
    (buildRequest
        (createApiClient u (tokenForClient (logout s)) r b)).authorization
      = none := by
  refine ⟨?_, rfl, rfl, rfl⟩
  cases h : s.token with
  | none => simp [isAuthenticated, h]
  | some t => simp [isAuthenticated, h, Bool.eq_false_iff, String.isEmpty_iff]

/-- C2 (amended): when the in-flight refresh succeeds, the transport's
captured token is updated to the new token while the Auth State Holder is
unchanged (`createApiClient` holds only a copy of the token string and no
setter); every queued waiter's success continuation is invoked with the
new token in enqueue order; the originally-triggering request is retried
exactly once — after the waiters are resolved — with the new token in its
Authorization header; and the retried request's own outcome is returned to
the original caller unmodified. -/
theorem c2_refresh_success_behavior (app : AppState) (st : RefreshState)
    (err : ApiError) (req : RequestConfig) (now waiterId : Nat)
    (network : RequestConfig → NetOutcome)
    (h401 : err.status = some 401) (hretry : req.retry = false)
    (hidle : st.isRefreshing = false) :
    (systemResponseError ⟨app, st⟩ err req now waiterId).1.app = app ∧
    (systemResponseError ⟨app, st⟩ err req now waiterId).1.client.token
      = simulateRefresh st.token now ∧
    (systemResponseError ⟨app, st⟩ err req now waiterId).2.2
      = Action.startRefresh ::
          st.failedQueue.map
            (fun w => Action.resolveWaiter w (simulateRefresh st.token now))
          ++ [Action.retryRequest
                { req with
                    retry := true,
                    authorization :=
                      some ("Bearer " ++ simulateRefresh st.token now) }] ∧
    adoptOutcome network
        (systemResponseError ⟨app, st⟩ err req now waiterId).2.1
      = some (network
          { req with
              retry := true,
              authorization :=
                some ("Bearer " ++ simulateRefresh st.token now) }) := by
  simp [systemResponseError, handle401, handle401Core, processQueue,
    adoptOutcome, h401, hretry, hidle]

/-- C2 witness: concrete refresh-success step, showing the provider state
passes through unchanged while the transport token becomes the refreshed
one. -/
theorem c2_refresh_success_behavior_witness :
    (systemResponseError
        { app := { token := some "t0" },
          client := { token := "t0", isRefreshing := false, failedQueue := [3, 4] } }
        { status := some 401, tag := "expired" }
        { authorization := none, retry := false } 5 9).1.app
      = { token := some "t0" } ∧
    (systemResponseError
        { app := { token := some "t0" },
          client := { token := "t0", isRefreshing := false, failedQueue := [3, 4] } }
        { status := some 401, tag := "expired" }
        { authorization := none, retry := false } 5 9).1.client.token
      = simulateRefresh "t0" 5 := by
  have h := c2_refresh_success_behavior { token := some "t0" }
    { token := "t0", isRefreshing := false, failedQueue := [3, 4] }
    { status := some 401, tag := "expired" }
    { authorization := none, retry := false } 5 9
    (fun _ => NetOutcome.success "ok") rfl rfl rfl
  exact ⟨h.1, h.2.1⟩

/-- C3: if the in-flight refresh fails, every queued waiter is rejected
with the refresh error in enqueue order, the originally-triggering
request's promise is rejected with the refresh error (a `refreshErr`,
never the original 401 `apiErr`), and that is the outcome the original
caller observes. -/
theorem c3_refresh_failure (st : RefreshState) (err : ApiError)
    (req : RequestConfig) (waiterId : Nat) (e : String)
    (network : RequestConfig → NetOutcome)
    (h401 : err.status = some 401) (hretry : req.retry = false)
    (hidle : st.isRefreshing = false) :
    (handle401Core st err req (Except.error e) waiterId
      = ({ st with isRefreshing := false, failedQueue := [] },
         HandlerResult.reject (RejectValue.refreshErr e),
         Action.startRefresh ::
           st.failedQueue.map (fun w => Action.rejectWaiter w e))) ∧
    RejectValue.refreshErr e ≠ RejectValue.apiErr err ∧
    adoptOutcome network
        (handle401Core st err req (Except.error e) waiterId).2.1
      = some (NetOutcome.failure (RejectValue.refreshErr e)) := by
  refine ⟨?_, by simp, ?_⟩ <;>
    simp [handle401Core, processQueue, adoptOutcome, h401, hretry, hidle]

/-- C3 witness: a concrete failed refresh with two queued waiters. -/
theorem c3_refresh_failure_witness :
    handle401Core { token := "t0", isRefreshing := false, failedQueue := [4, 5] }
        { status := some 401, tag := "expired" }
        { authorization := none, retry := false } (Except.error "refresh failed") 9
      = ({ token := "t0", isRefreshing := false, failedQueue := [] },
         HandlerResult.reject (RejectValue.refreshErr "refresh failed"),
         [Action.startRefresh, Action.rejectWaiter 4 "refresh failed",
          Action.rejectWaiter 5 "refresh failed"]) := by
  exact (c3_refresh_failure
    { token := "t0", isRefreshing := false, failedQueue := [4, 5] }
    { status := some 401, tag := "expired" }
    { authorization := none, retry := false } 9 "refresh failed"
    (fun _ => NetOutcome.success "ok") rfl rfl rfl).1

/-- While a refresh is in flight, each additional 401 on a fresh request
only appends its waiter to the queue, in arrival order: no second refresh
starts and no waiter is settled before the refresh does. -/
theorem run401s_enqueues (ids : List Nat) : ∀ st : RefreshState,
    st.isRefreshing = true →
    run401s st ids
      = ({ st with failedQueue := st.failedQueue ++ ids },
         ids.map Action.enqueue) := by
  induction ids with
  | nil => intro st h; simp [run401s]
  | cons i rest ih =>
    intro st h
    have hstep : handle401 st err401 freshRequest 0 i
        = ({ st with failedQueue := st.failedQueue ++ [i] },
           HandlerResult.suspend i, [Action.enqueue i]) := by
      simp [handle401, handle401Core, err401, freshRequest, h]
    have hrec := ih { st with failedQueue := st.failedQueue ++ [i] } h
    simp [run401s, hstep, hrec]

/-- C4: while a refresh is already in flight, any number of additional
401s produce exactly one enqueue each (and no further refresh), extending
the queue in FIFO order; when the in-flight refresh settles,
`processQueue` resolves (or rejects) every queued waiter exactly once, in
enqueue order, and empties the queue; and a waiter is never enqueued while
the flag is down. -/
theorem c4_refresh_queue_fifo :
    (∀ (st : RefreshState) (ids : List Nat) (tok : String),
      st.isRefreshing = true →
      run401s st ids
        = ({ st with failedQueue := st.failedQueue ++ ids },
           ids.map Action.enqueue) ∧
      processQueue (st.failedQueue ++ ids) none (some tok)
        = ((st.failedQueue ++ ids).map (fun w => Action.resolveWaiter w tok),
           []) ∧
      processQueue (st.failedQueue ++ ids) (some "refresh failed") none
        = ((st.failedQueue ++ ids).map
             (fun w => Action.rejectWaiter w "refresh failed"), [])) ∧
    (∀ (st : RefreshState) (err : ApiError) (req : RequestConfig)
        (now waiterId w : Nat),
      st.isRefreshing = false →
      Action.enqueue w ∉ (handle401 st err req now waiterId).2.2) := by
  constructor
  · intro st ids tok h
    exact ⟨run401s_enqueues ids st h, by simp [processQueue], by simp [processQueue]⟩
  · intro st err req now waiterId w h
    by_cases hc : err.status = some 401 ∧ req.retry = false
    · simp [handle401, handle401Core, hc, h, processQueue]
    · simp [handle401, handle401Core, hc]

/-- C4 witness: two 401s arriving during an in-flight refresh enqueue
waiters 1 and 2 behind waiter 7; with the flag down nothing is enqueued. -/
theorem c4_refresh_queue_fifo_witness :
    run401s { token := "t", isRefreshing := true, failedQueue := [7] } [1, 2]
      = ({ token := "t", isRefreshing := true, failedQueue := [7, 1, 2] },
         [Action.enqueue 1, Action.enqueue 2]) ∧
    Action.enqueue 0
      ∉ (handle401 { token := "t", isRefreshing := false, failedQueue := [] }
           err401 freshRequest 0 0).2.2 := by
  constructor
  · exact (c4_refresh_queue_fifo.1
      { token := "t", isRefreshing := true, failedQueue := [7] } [1, 2] "n" rfl).1
  · exact c4_refresh_queue_fifo.2
      { token := "t", isRefreshing := false, failedQueue := [] }
      err401 freshRequest 0 0 0 rfl

/-- C6: with `enableRefreshToken = false` no refresh interceptor is
installed, so every response error — a 401 included — is propagated to the
caller unmodified, with no state change, no retry and no queueing. -/
theorem c6_refresh_disabled_propagates (t : Transport) (st : RefreshState)
    (err : ApiError) (req : RequestConfig) (now waiterId : Nat)
    (network : RequestConfig → NetOutcome)
    (h : t.enableRefreshToken = false) :
    responseErrorHandler t st err req now waiterId
      = (st, HandlerResult.reject (RejectValue.apiErr err), []) ∧
    adoptOutcome network (responseErrorHandler t st err req now waiterId).2.1
      = some (NetOutcome.failure (RejectValue.apiErr err)) := by
  refine ⟨?_, ?_⟩ <;> simp [responseErrorHandler, h, adoptOutcome]

/-- C6 witness: a 401 through a refresh-disabled transport comes back as
the very same error. -/
theorem c6_refresh_disabled_propagates_witness :
    responseErrorHandler (createApiClient "https://api" "t" false true)
        { token := "t", isRefreshing := false, failedQueue := [] }
        { status := some 401, tag := "expired" }
        { authorization := none, retry := false } 0 0
      = ({ token := "t", isRefreshing := false, failedQueue := [] },
         HandlerResult.reject
           (RejectValue.apiErr { status := some 401, tag := "expired" }),
         []) := by
  exact (c6_refresh_disabled_propagates
    (createApiClient "https://api" "t" false true)
    { token := "t", isRefreshing := false, failedQueue := [] }
    { status := some 401, tag := "expired" }
    { authorization := none, retry := false } 0 0
    (fun _ => NetOutcome.success "ok") rfl).1

/-- C7: a single 401 on a fresh request (refresh idle, nothing queued)
starts exactly one refresh and dispatches exactly one retry carrying the
new token, while any non-401 error — or a 401 on a request already marked
retried — is rejected unmodified, with no enqueue and no refresh. -/
theorem c7_single_401_refresh_and_retry (st : RefreshState) (err : ApiError)
    (req : RequestConfig) (now waiterId : Nat) :
    (st.isRefreshing = false → st.failedQueue = [] → err.status = some 401 →
      req.retry = false →
      handle401 st err req now waiterId
        = ({ token := simulateRefresh st.token now, isRefreshing := false,
             failedQueue := [] },
           HandlerResult.retry
             { req with
                 retry := true,
                 authorization :=
                   some ("Bearer " ++ simulateRefresh st.token now) },
           [Action.startRefresh,
            Action.retryRequest
              { req with
                  retry := true,
                  authorization :=
                    some ("Bearer " ++ simulateRefresh st.token now) }])) ∧
    (err.status ≠ some 401 ∨ req.retry = true →
      handle401 st err req now waiterId
        = (st, HandlerResult.reject (RejectValue.apiErr err), [])) := by
  constructor
  · intro h1 h2 h3 h4
    simp [handle401, handle401Core, processQueue, h1, h2, h3, h4]
  · rintro (h | h) <;> simp [handle401, handle401Core, h]

/-- C7 witness: the 401 branch at a concrete idle state, and a 500 being
passed through untouched. -/
theorem c7_single_401_refresh_and_retry_witness :
    handle401 { token := "t0", isRefreshing := false, failedQueue := [] }
        { status := some 401, tag := "expired" }
        { authorization := none, retry := false } 5 0
      = ({ token := simulateRefresh "t0" 5, isRefreshing := false,
           failedQueue := [] },
         HandlerResult.retry
           { authorization := some ("Bearer " ++ simulateRefresh "t0" 5),
             retry := true },
         [Action.startRefresh,
          Action.retryRequest
            { authorization := some ("Bearer " ++ simulateRefresh "t0" 5),
              retry := true }]) ∧
    handle401 { token := "t0", isRefreshing := false, failedQueue := [] }
        { status := some 500, tag := "boom" }
        { authorization := none, retry := false } 5 0
      = ({ token := "t0", isRefreshing := false, failedQueue := [] },
         HandlerResult.reject
           (RejectValue.apiErr { status := some 500, tag := "boom" }),
         []) := by
  constructor
  · exact (c7_single_401_refresh_and_retry
      { token := "t0", isRefreshing := false, failedQueue := [] }
      { status := some 401, tag := "expired" }
      { authorization := none, retry := false } 5 0).1 rfl rfl rfl rfl
  · exact (c7_single_401_refresh_and_retry
      { token := "t0", isRefreshing := false, failedQueue := [] }
      { status := some 500, tag := "boom" }
      { authorization := none, retry := false } 5 0).2 (Or.inl (by decide))

/-- C9: the implemented refresh is the local simulation
`refreshed_<token>_<timestamp>` and always succeeds — the handler always
runs `handle401Core` with an `Except.ok` outcome — so no execution ever
rejects a waiter or rejects a caller with a refresh error: the
refresh-failure branch is unreachable. -/
theorem c9_refresh_cannot_fail (st : RefreshState) (err : ApiError)
    (req : RequestConfig) (now waiterId w : Nat) (e : String) :
    handle401 st err req now waiterId
      = handle401Core st err req (Except.ok (simulateRefresh st.token now))
          waiterId ∧
    simulateRefresh st.token now
      = "refreshed_" ++ st.token ++ "_" ++ toString now ∧
    Action.rejectWaiter w e ∉ (handle401 st err req now waiterId).2.2 ∧
    (handle401 st err req now waiterId).2.1
      ≠ HandlerResult.reject (RejectValue.refreshErr e) := by
  refine ⟨rfl, rfl, ?_, ?_⟩ <;>
  · by_cases hc : err.status = some 401 ∧ req.retry = false
    · cases hb : st.isRefreshing with
      | true => simp [handle401, handle401Core, hc, hb]
      | false => simp [handle401, handle401Core, hc, hb, processQueue]
    · simp [handle401, handle401Core, hc]

/-- C10: the transport factory declares exactly four parameters; a call
passing the hooks' fifth `axiosConfig` argument builds the same transport
as the four-argument call, for every value of the extra argument. -/
theorem c10_extra_argument_ignored (baseUrl token : String)
    (enableRefreshToken bearer : Bool)
    (extra extra2 : Option (List (String × String))) :
    createApiClientWithExtra baseUrl token enableRefreshToken bearer extra
      = createApiClient baseUrl token enableRefreshToken bearer ∧
    createApiClientWithExtra baseUrl token enableRefreshToken bearer extra
      = createApiClientWithExtra baseUrl token enableRefreshToken bearer
          extra2 := by
  exact ⟨rfl, rfl⟩

end PlugAndPlay
